import Mathlib

/-!
Shallow embedding of the NetworkSimulator core (packet.py, link.py, flow.py,
host.py, router.py) and verification of the frozen claims about it.

Conventions of the embedding:
* Python floats become `ℚ` (all arithmetic in the source is exact decimal /
  integer arithmetic on the values that matter here);
* Python ints become `ℤ` (or `ℕ` where the source only ever holds sizes);
* simpy events are modelled by explicit booleans ("the event was succeeded
  during this step") and emitted-packet lists;
* a Python runtime error (failed name lookup, failed assert) is modelled by
  `Except PyError`.
-/

/-- Runtime errors of the Python interpreter that the embedding must surface. -/
inductive PyError where
  | nameError (n : String)
  | attributeError (n : String)
  | assertionError
deriving DecidableEq

/-! ## Packets (packet.py) -/

/-- The `Packet.PacketTypes` enum of packet.py. -/
inductive PacketType where
  | data_packet
  | ack_packet
  | routing_update_packet
  | fin_packet
deriving DecidableEq

/-- The fields of `Packet.__init__` (packet.py); the routing-update
distance-vector payload is carried separately and unused by the claims. -/
structure Packet where
  src : ℤ
  flow_id : ℤ
  dest : ℤ
  timestamp : ℚ
  length : ℕ
  packet_type : PacketType
  seq_num : ℤ
deriving DecidableEq

/-- Embeds `DataPacket.DATA_PACKET_LENGTH` (packet.py). -/
def DATA_PACKET_LENGTH : ℕ := 1024

/-- Embeds `AckPacket.ACKNOWLEDGMENT_PACKET_LENGTH` (packet.py). -/
def ACKNOWLEDGMENT_PACKET_LENGTH : ℕ := 64

/-- Embeds `FINPacket.FIN_PACKET_LENGTH` (packet.py). -/
def FIN_PACKET_LENGTH : ℕ := 64

/-- Embeds `DataPacket.__init__` (packet.py). -/
def DataPacket (src flow_id dest : ℤ) (timestamp : ℚ) (seq_num : ℤ) : Packet :=
  ⟨src, flow_id, dest, timestamp, DATA_PACKET_LENGTH, PacketType.data_packet, seq_num⟩

/-- Embeds `AckPacket.__init__` (packet.py). -/
def AckPacket (src flow_id dest : ℤ) (timestamp : ℚ) (seq_num : ℤ) : Packet :=
  ⟨src, flow_id, dest, timestamp, ACKNOWLEDGMENT_PACKET_LENGTH, PacketType.ack_packet, seq_num⟩

/-- Embeds `FINPacket.__init__` (packet.py). -/
def FINPacket (src flow_id dest : ℤ) (timestamp : ℚ) (seq_num : ℤ) : Packet :=
  ⟨src, flow_id, dest, timestamp, FIN_PACKET_LENGTH, PacketType.fin_packet, seq_num⟩

/-! ## Link (link.py) -/

/-- Embeds `Link.MBPS_TO_B_PER_MS` (link.py line 6). -/
def MBPS_TO_B_PER_MS : ℚ := 131.072

/-- Embeds `Link.KB_TO_B` (link.py line 7). -/
def KB_TO_B : ℕ := 1024

/-- The mutable state of a `Link` that the claims touch.  The two directional
buffers `buffer[device_ids[i]]` are stored as explicit fields indexed by a
`Bool` (`true` = direction keyed by `device_ids[0]`). -/
structure Link where
  link_rate : ℚ
  link_delay : ℚ
  buffer_size : ℕ
  bufferA : List (Packet × ℚ)
  bufferB : List (Packet × ℚ)
  usedA : ℕ
  usedB : ℕ
  packet_drop : ℕ
  transmitted_size : ℕ
deriving DecidableEq

/-- Embeds `Link.__init__` (link.py lines 34-50): unit conversions and empty buffers.
`link_rate` is given in Mbps, `buffer_size` in KB. -/
def Link.init (link_rate : ℚ) (link_delay : ℚ) (buffer_size : ℕ) : Link :=
  { link_rate := MBPS_TO_B_PER_MS * link_rate
    link_delay := link_delay
    buffer_size := KB_TO_B * buffer_size
    bufferA := []
    bufferB := []
    usedA := 0
    usedB := 0
    packet_drop := 0
    transmitted_size := 0 }

/-- Embeds `buffer_used[src_id]` for a direction of the link. -/
def Link.used (l : Link) (side : Bool) : ℕ :=
  if side then l.usedA else l.usedB

/-- Embeds `buffer[src_id]` for a direction of the link. -/
def Link.buf (l : Link) (side : Bool) : List (Packet × ℚ) :=
  if side then l.bufferA else l.bufferB

/-- Embeds `Link.enqueue` (link.py lines 71-85): tail-drop if the direction's buffer
cannot also hold the packet, otherwise append it (timestamped `env.now`) and
grow `buffer_used`.  The `busy` event wake-up does not change link state. -/
def Link.enqueue (l : Link) (packet : Packet) (side : Bool) (now : ℚ) : Link :=
  let size := packet.length
  if l.buffer_size < l.used side + size then
    { l with packet_drop := l.packet_drop + 1 }
  else if side then
    { l with bufferA := l.bufferA ++ [(packet, now)], usedA := l.usedA + size }
  else
    { l with bufferB := l.bufferB ++ [(packet, now)], usedB := l.usedB + size }

/-! ## Receiving flow (flow.py lines 526-615) -/

/-- The state of a `ReceivingFlow` relevant to the claims. -/
structure ReceivingFlow where
  flow_id : ℤ
  src_host_id : ℤ
  dest_host_id : ℤ
  req_num : ℤ
deriving DecidableEq

/-- Embeds `ReceivingFlow.__init__` (flow.py lines 530-569): `req_num` starts at 1.
`src_host_id` is the id of the host object passed as `src_host`. -/
def ReceivingFlow.init (flow_id dest_host_id src_host_id : ℤ) : ReceivingFlow :=
  { flow_id := flow_id
    src_host_id := src_host_id
    dest_host_id := dest_host_id
    req_num := 1 }

/-- Outcome of one iteration of `ReceivingFlow.run`'s loop body. -/
inductive RFStep where
  /-- A data packet was handled: the flow continues with the new state and
  has sent the given ack packet. -/
  | acked (f : ReceivingFlow) (ack : Packet)
  /-- A FIN packet was handled: the flow replies with the given FIN packet,
  leaves the loop and removes itself from its host (`end_flow`). -/
  | finished (fin : Packet)
deriving DecidableEq

/-- One iteration of `ReceivingFlow.run` (flow.py lines 578-609), handling
one received packet: on a data packet, bump `req_num` exactly when the
packet's sequence number equals it, then answer with an ack carrying the
post-update `req_num` and the data packet's own timestamp; on a FIN, reply
with a FIN and stop; any other packet type fails the assert. -/
def ReceivingFlow.step (f : ReceivingFlow) (p : Packet) : Except PyError RFStep :=
  if p.packet_type = PacketType.data_packet then
    let req' := if p.seq_num = f.req_num then f.req_num + 1 else f.req_num
    let f' := { f with req_num := req' }
    Except.ok (RFStep.acked f'
      (AckPacket f.src_host_id f.flow_id f.dest_host_id p.timestamp req'))
  else if p.packet_type = PacketType.fin_packet then
    Except.ok (RFStep.finished
      (FINPacket f.src_host_id f.flow_id f.dest_host_id p.timestamp (-1)))
  else
    Except.error PyError.assertionError

/-- Folding `ReceivingFlow.step` over a list of data packets, keeping the
running flow state (FIN/termination cannot occur on data packets). -/
def ReceivingFlow.runData (f : ReceivingFlow) (l : List (ℚ × ℤ)) : ReceivingFlow :=
  l.foldl (fun f tp => { f with req_num :=
    if tp.2 = f.req_num then f.req_num + 1 else f.req_num }) f

/-- Lemma: `ReceivingFlow.runData` agrees with iterating `ReceivingFlow.step` on the
corresponding data packets (same seq and timestamp, any addressing). -/
theorem ReceivingFlow.step_data_eq_runData (f : ReceivingFlow) (src flow dest : ℤ)
    (ts : ℚ) (s : ℤ) :
    f.step (DataPacket src flow dest ts s) =
      Except.ok (RFStep.acked (f.runData [(ts, s)])
        (AckPacket f.src_host_id f.flow_id f.dest_host_id ts (f.runData [(ts, s)]).req_num)) := by
  simp [ReceivingFlow.step, ReceivingFlow.runData, DataPacket]

theorem ReceivingFlow.runData_req_num_mono (f : ReceivingFlow) (l : List (ℚ × ℤ)) :
    f.req_num ≤ (f.runData l).req_num := by
  induction l generalizing f with
  | nil => simp [ReceivingFlow.runData]
  | cons tp l ih =>
      refine le_trans ?_ (ih { f with req_num :=
        if tp.2 = f.req_num then f.req_num + 1 else f.req_num })
      by_cases h : tp.2 = f.req_num <;> simp [h]

/-- C1: a receiving flow starts with `req_num = 1`; on a data packet with
sequence number `s`, `req_num` is incremented by 1 exactly when `s` equals it,
the emitted ack carries the post-update `req_num` and the data packet's
timestamp, and `req_num` is non-decreasing over any sequence of received data
packets. -/
theorem receiving_flow_ack_spec (f : ReceivingFlow) (src flow dest fid did sid : ℤ)
    (ts : ℚ) (s : ℤ) (f' : ReceivingFlow) (ack : Packet)
    (h : f.step (DataPacket src flow dest ts s) = Except.ok (RFStep.acked f' ack)) :
    (ReceivingFlow.init fid did sid).req_num = 1 ∧
    (s = f.req_num → f'.req_num = f.req_num + 1) ∧
    (s ≠ f.req_num → f'.req_num = f.req_num) ∧
    ack.seq_num = f'.req_num ∧
    ack.timestamp = ts ∧
    f.req_num ≤ f'.req_num ∧
    (∀ l : List (ℚ × ℤ), f.req_num ≤ (f.runData l).req_num) := by
  have h' := h
  rw [ReceivingFlow.step_data_eq_runData] at h'
  obtain ⟨hf, hack⟩ : f' = f.runData [(ts, s)] ∧
      ack = AckPacket f.src_host_id f.flow_id f.dest_host_id ts
        (f.runData [(ts, s)]).req_num := by
    cases h'; exact ⟨rfl, rfl⟩
  subst hf; subst hack
  refine ⟨rfl, ?_, ?_, rfl, rfl, ?_, fun l => f.runData_req_num_mono l⟩
  · intro hs; simp [ReceivingFlow.runData, hs]
  · intro hs; simp [ReceivingFlow.runData, hs]
  · exact f.runData_req_num_mono [(ts, s)]

theorem receiving_flow_ack_spec_witness :
    ∃ f' ack, (ReceivingFlow.init 7 2 1).step (DataPacket 2 7 1 (5 : ℚ) 1) =
      Except.ok (RFStep.acked f' ack) ∧
      ((ReceivingFlow.init 7 2 1).step (DataPacket 2 7 1 (5 : ℚ) 1) =
          Except.ok (RFStep.acked f' ack) →
        (ReceivingFlow.init 7 2 1).req_num ≤ f'.req_num) := by
  refine ⟨ReceivingFlow.runData (ReceivingFlow.init 7 2 1) [((5 : ℚ), 1)],
    AckPacket 1 7 2 (5 : ℚ) 2, rfl, fun h => ?_⟩
  exact (receiving_flow_ack_spec (ReceivingFlow.init 7 2 1) 2 7 1 7 2 1 (5 : ℚ) 1 _ _ h).2.2.2.2.2.1

/-- C2: `Link.enqueue` drops (counter +1, buffers and occupancy untouched)
exactly when the packet would overflow the direction's buffer; otherwise it
appends the packet and grows `buffer_used` by the packet length.  Hence
`buffer_used ≤ buffer_size` is preserved in both directions. -/
theorem link_enqueue_spec (l : Link) (p : Packet) (side : Bool) (now : ℚ)
    (hinv : ∀ s : Bool, l.used s ≤ l.buffer_size) :
    (l.buffer_size < l.used side + p.length →
      (l.enqueue p side now).packet_drop = l.packet_drop + 1 ∧
      (∀ s, (l.enqueue p side now).buf s = l.buf s) ∧
      (∀ s, (l.enqueue p side now).used s = l.used s)) ∧
    (¬ l.buffer_size < l.used side + p.length →
      (l.enqueue p side now).packet_drop = l.packet_drop ∧
      (l.enqueue p side now).buf side = l.buf side ++ [(p, now)] ∧
      (l.enqueue p side now).used side = l.used side + p.length ∧
      (l.enqueue p side now).buf (!side) = l.buf (!side) ∧
      (l.enqueue p side now).used (!side) = l.used (!side)) ∧
    (∀ s, (l.enqueue p side now).used s ≤ l.buffer_size) := by
  cases side
  · by_cases hover : l.buffer_size < l.usedB + p.length
    · have e : l.enqueue p false now = { l with packet_drop := l.packet_drop + 1 } := by
        simp [Link.enqueue, Link.used, hover]
      refine ⟨fun _ => ?_, fun hfit => ?_, fun s => ?_⟩
      · rw [e]
        exact ⟨rfl, fun s => by cases s <;> simp [Link.buf],
          fun s => by cases s <;> simp [Link.used]⟩
      · exact absurd (by simpa [Link.used] using hover) hfit
      · rw [e]
        cases s
        · simpa [Link.used] using hinv false
        · simpa [Link.used] using hinv true
    · have e : l.enqueue p false now =
          { l with bufferB := l.bufferB ++ [(p, now)], usedB := l.usedB + p.length } := by
        simp [Link.enqueue, Link.used, hover]
      refine ⟨fun h => absurd (by simpa [Link.used] using h)
        (by simpa [Link.used] using hover), fun _ => ?_, fun s => ?_⟩
      · rw [e]
        exact ⟨rfl, by simp [Link.buf], by simp [Link.used], by simp [Link.buf],
          by simp [Link.used]⟩
      · rw [e]
        cases s
        · simp only [Link.used, Bool.false_eq_true, if_false]
          omega
        · simpa [Link.used] using hinv true
  · by_cases hover : l.buffer_size < l.usedA + p.length
    · have e : l.enqueue p true now = { l with packet_drop := l.packet_drop + 1 } := by
        simp [Link.enqueue, Link.used, hover]
      refine ⟨fun _ => ?_, fun hfit => ?_, fun s => ?_⟩
      · rw [e]
        exact ⟨rfl, fun s => by cases s <;> simp [Link.buf],
          fun s => by cases s <;> simp [Link.used]⟩
      · exact absurd (by simpa [Link.used] using hover) hfit
      · rw [e]
        cases s
        · simpa [Link.used] using hinv false
        · simpa [Link.used] using hinv true
    · have e : l.enqueue p true now =
          { l with bufferA := l.bufferA ++ [(p, now)], usedA := l.usedA + p.length } := by
        simp [Link.enqueue, Link.used, hover]
      refine ⟨fun h => absurd (by simpa [Link.used] using h)
        (by simpa [Link.used] using hover), fun _ => ?_, fun s => ?_⟩
      · rw [e]
        exact ⟨rfl, by simp [Link.buf], by simp [Link.used], by simp [Link.buf],
          by simp [Link.used]⟩
      · rw [e]
        cases s
        · simpa [Link.used] using hinv false
        · simp only [Link.used, if_true]
          omega

theorem link_enqueue_spec_witness :
    ((Link.init 10 10 64).enqueue (DataPacket 0 0 1 (0 : ℚ) 1) true (0 : ℚ)).used true ≤
        (Link.init 10 10 64).buffer_size ∧
    ((Link.init 10 10 64).enqueue (DataPacket 0 0 1 (0 : ℚ) 1) true (0 : ℚ)).used false ≤
        (Link.init 10 10 64).buffer_size := by
  constructor
  · exact (link_enqueue_spec (Link.init 10 10 64) (DataPacket 0 0 1 (0 : ℚ) 1) true (0 : ℚ)
      (by decide)).2.2 true
  · exact (link_enqueue_spec (Link.init 10 10 64) (DataPacket 0 0 1 (0 : ℚ) 1) true (0 : ℚ)
      (by decide)).2.2 false

/-- C9: `Link.__init__` stores the service rate as `131.072 · r` B/ms and the
buffer capacity as `1024 · c` bytes, for external rate `r` Mbps and external
capacity `c` KB. -/
theorem link_init_units (r delay : ℚ) (c : ℕ) :
    (Link.init r delay c).link_rate = (131.072 : ℚ) * r ∧
    (Link.init r delay c).buffer_size = 1024 * c := by
  exact ⟨rfl, rfl⟩

/-! ## Sending flow (flow.py lines 98-524) -/

/-- The congestion-control algorithm selector (`self.cc` in flow.py). -/
inductive CC where
  | Tahoe
  | FAST
deriving DecidableEq

/-- Embeds `SendingFlow.DATA_PCK_SIZE` (flow.py line 115). -/
def DATA_PCK_SIZE : ℚ := 1024

/-- Embeds `SendingFlow.DUP_ACK` (flow.py line 116). -/
def DUP_ACK : ℤ := 3

/-- The mutable state of a `SendingFlow`.  The source stores the
FAST-specific fields (`base_rtt`, `alpha`) and the Tahoe-specific fields
(`ssthresh`, `is_CA`, `dup_ack`, `last_dup`) on the same object depending on
`cc`; the embedding carries them all. -/
structure SendingFlow where
  cc : CC
  flow_id : ℤ
  src_host_id : ℤ
  dest_host_id : ℤ
  data_amt : ℚ
  end_time : Option ℚ
  batch_start : ℤ
  window_start : ℤ
  window_end : ℤ
  window_start_time : ℚ
  window_size : ℚ
  retransmit_timeout : ℚ
  rtt : ℚ
  sum_RTT_delay : ℚ
  base_rtt : ℚ
  alpha : ℚ
  fast_timeout : ℚ
  ssthresh : ℚ
  is_CA : Bool
  dup_ack : ℤ
  last_dup : ℚ
deriving DecidableEq

/-- Embeds `SendingFlow.enter_slow_start` (flow.py lines 261-265). -/
def SendingFlow.enter_slow_start (f : SendingFlow) : SendingFlow :=
  { f with ssthresh := max (f.window_size / 2) 2
           window_size := 1
           is_CA := false }

/-- The `for i in range(k): self.window_size += 1.0 / self.window_size` loop
of `tahoe_monitor_incoming_pkts` (flow.py lines 414-415). -/
def ca_increase : ℕ → ℚ → ℚ
  | 0, w => w
  | n + 1, w => ca_increase n (w + 1 / w)

/-- One iteration of `SendingFlow.tahoe_monitor_incoming_pkts`'s loop body
(flow.py lines 387-438) on one received ack packet at time `now`.  Returns
the new flow state, the packets sent during the iteration (a fast
retransmission, if any) and whether `received_batch_event` was succeeded. -/
def SendingFlow.tahoe_ack_step (f : SendingFlow) (now : ℚ) (p : Packet) :
    SendingFlow × List Packet × Bool :=
  let req_num := p.seq_num
  let rtt := now - p.timestamp
  let f := { f with rtt := rtt, sum_RTT_delay := f.sum_RTT_delay + rtt }
  -- Ignore ack packets from previous window iterations.
  if p.timestamp < f.window_start_time then
    (f, [], false)
  else
    let fo :=
      if f.batch_start < req_num then
        let f := { f with
          data_amt := f.data_amt - ((req_num - f.batch_start : ℤ) : ℚ) * DATA_PCK_SIZE
          dup_ack := 0 }
        let f :=
          if f.is_CA then
            { f with window_size := ca_increase (req_num - f.batch_start).toNat f.window_size }
          else
            { f with window_size := f.window_size + 1
                     is_CA := decide (f.ssthresh ≤ f.window_size + 1) }
        ({ f with batch_start := req_num }, ([] : List Packet))
      else if req_num = f.batch_start then
        let f :=
          if (16 : ℚ) ≤ now - f.last_dup then
            { f with dup_ack := f.dup_ack + 1, last_dup := now }
          else f
        if f.dup_ack = DUP_ACK then
          (SendingFlow.enter_slow_start { f with dup_ack := 0 },
            [DataPacket f.src_host_id f.flow_id f.dest_host_id now f.batch_start])
        else (f, [])
      else (f, [])
    (fo.1, fo.2, decide (fo.1.batch_start = fo.1.window_end + 1))

/-- One iteration of `SendingFlow.FAST_monitor_incoming_pkts`'s loop body
(flow.py lines 347-375) on one received ack packet at time `now`.  Returns
the new flow state and whether `received_batch_event` was succeeded. -/
def SendingFlow.FAST_ack_step (f : SendingFlow) (now : ℚ) (p : Packet) :
    SendingFlow × Bool :=
  let req_num := p.seq_num
  let rtt := now - p.timestamp
  let f := { f with rtt := rtt
                    base_rtt := min rtt f.base_rtt
                    sum_RTT_delay := f.sum_RTT_delay + rtt }
  -- Ignore ack packets from previous window iterations.
  if p.timestamp < f.window_start_time then
    (f, false)
  else
    let f :=
      if f.batch_start < req_num then
        { f with
          data_amt := f.data_amt - ((req_num - f.batch_start : ℤ) : ℚ) * DATA_PCK_SIZE
          batch_start := req_num }
      else f
    (f, decide (f.batch_start = f.window_end + 1))

/-- One iteration of the `SendingFlow.FAST` timer loop (flow.py lines
267-274): while the flow has not ended, each `fast_timeout` the window is set
to `window · base_rtt / rtt + alpha`; once ended, the window is zeroed and
the loop exits. -/
def SendingFlow.FAST_timer_step (f : SendingFlow) : SendingFlow :=
  if f.end_time = none then
    { f with window_size := f.window_size * f.base_rtt / f.rtt + f.alpha }
  else
    { f with window_size := 0 }

/-- The end of one Go-Back-N batch in `SendingFlow.run` (flow.py lines
317-326): `batch_triggered` records whether `received_batch_event` fired
before the `retransmit_timeout`; on a Tahoe timeout the flow re-enters slow
start, and in every case the retransmit timeout becomes `3 · rtt`. -/
def SendingFlow.batch_end_step (f : SendingFlow) (batch_triggered : Bool) : SendingFlow :=
  let f :=
    if batch_triggered then f
    else if f.cc = CC.Tahoe then f.enter_slow_start
    else f
  { f with retransmit_timeout := 3 * f.rtt }

/-- Iterating `SendingFlow.FAST_ack_step` over a list of (arrival time,
packet) pairs. -/
def SendingFlow.FAST_run_acks (f : SendingFlow) (l : List (ℚ × Packet)) : SendingFlow :=
  l.foldl (fun f np => (f.FAST_ack_step np.1 np.2).1) f

theorem SendingFlow.FAST_ack_step_base_rtt (f : SendingFlow) (now : ℚ) (p : Packet) :
    (f.FAST_ack_step now p).1.base_rtt = min (now - p.timestamp) f.base_rtt := by
  unfold SendingFlow.FAST_ack_step
  dsimp only
  split
  · rfl
  · split <;> rfl

/-- A concrete Tahoe flow state in slow start, as set up by
`SendingFlow.__init__`/`run` (window 1, `ssthresh` 40, `dup_ack` 0) with a
batch [1,4] in flight since time 100. -/
def tahoeFlow0 : SendingFlow :=
  { cc := CC.Tahoe
    flow_id := 1
    src_host_id := 0
    dest_host_id := 2
    data_amt := 20 * 2 ^ 20
    end_time := none
    batch_start := 1
    window_start := 1
    window_end := 4
    window_start_time := 100
    window_size := 1
    retransmit_timeout := 3000
    rtt := 1000
    sum_RTT_delay := 0
    base_rtt := 100000
    alpha := 50
    fast_timeout := 500
    ssthresh := 40
    is_CA := false
    dup_ack := 0
    last_dup := 0 }

/-- A concrete FAST flow state with the initial `base_rtt = 100000` of
`SendingFlow.__init__` and a batch [1,20] in flight since time 0. -/
def fastFlow0 : SendingFlow :=
  { tahoeFlow0 with
    cc := CC.FAST
    window_end := 20
    window_start_time := 0
    window_size := 20 }

/-- C3 (counterexample): in slow start the code grows the window by exactly 1
per ACK, not by 1 per newly-ACKed segment.  Here an ACK acknowledges
`k = 3 - 1 = 2` new segments of a slow-start flow with window 1, is not
stale, yet the window becomes 2, not `1 + k = 3`. -/
theorem tahoe_slow_start_window_counterexample :
    (AckPacket 2 1 0 100 3).seq_num - tahoeFlow0.batch_start = 2 ∧
    tahoeFlow0.is_CA = false ∧
    ¬ (AckPacket 2 1 0 100 3).timestamp < tahoeFlow0.window_start_time ∧
    (tahoeFlow0.tahoe_ack_step 200 (AckPacket 2 1 0 100 3)).1.window_size = 2 ∧
    (tahoeFlow0.tahoe_ack_step 200 (AckPacket 2 1 0 100 3)).1.window_size ≠
      tahoeFlow0.window_size + 2 := by
  have he : (tahoeFlow0.tahoe_ack_step 200 (AckPacket 2 1 0 100 3)).1.window_size = 2 := by
    norm_num [SendingFlow.tahoe_ack_step, tahoeFlow0, AckPacket]
  refine ⟨by norm_num [AckPacket, tahoeFlow0], rfl,
    by norm_num [AckPacket, tahoeFlow0], he, ?_⟩
  rw [he]
  norm_num [tahoeFlow0]

/-- C3 (amended): on a non-stale ACK with `req_num > batch_start`
acknowledging `k` new segments, a Tahoe flow in congestion avoidance grows
its window by `1/window` iteratively `k` times, while in slow start the
window grows by exactly 1 per ACK (regardless of `k`) and `is_CA` becomes
true exactly when the grown window reaches `ssthresh`; in both cases
`batch_start` advances to `req_num` and the dup-ACK counter resets. -/
theorem tahoe_ack_window_update (f : SendingFlow) (now : ℚ) (p : Packet)
    (hstale : ¬ p.timestamp < f.window_start_time)
    (hnew : f.batch_start < p.seq_num) :
    (f.is_CA = true →
      (f.tahoe_ack_step now p).1.window_size =
        ca_increase (p.seq_num - f.batch_start).toNat f.window_size ∧
      (f.tahoe_ack_step now p).1.is_CA = true) ∧
    (f.is_CA = false →
      (f.tahoe_ack_step now p).1.window_size = f.window_size + 1 ∧
      ((f.tahoe_ack_step now p).1.is_CA = true ↔ f.ssthresh ≤ f.window_size + 1)) ∧
    (f.tahoe_ack_step now p).1.batch_start = p.seq_num ∧
    (f.tahoe_ack_step now p).1.dup_ack = 0 := by
  refine ⟨fun hca => ?_, fun hss => ?_, ?_, ?_⟩
  · simp [SendingFlow.tahoe_ack_step, hstale, hnew, hca]
  · simp [SendingFlow.tahoe_ack_step, hstale, hnew, hss]
  · by_cases hca : f.is_CA <;> simp [SendingFlow.tahoe_ack_step, hstale, hnew, hca]
  · by_cases hca : f.is_CA <;> simp [SendingFlow.tahoe_ack_step, hstale, hnew, hca]

theorem tahoe_ack_window_update_witness :
    ¬ (AckPacket 2 1 0 100 3).timestamp < tahoeFlow0.window_start_time ∧
    tahoeFlow0.batch_start < (AckPacket 2 1 0 100 3).seq_num ∧
    (tahoeFlow0.is_CA = false →
      (tahoeFlow0.tahoe_ack_step 200 (AckPacket 2 1 0 100 3)).1.window_size =
        tahoeFlow0.window_size + 1) := by
  refine ⟨by norm_num [AckPacket, tahoeFlow0], by norm_num [AckPacket, tahoeFlow0], fun h => ?_⟩
  exact ((tahoe_ack_window_update tahoeFlow0 200 (AckPacket 2 1 0 100 3)
    (by norm_num [AckPacket, tahoeFlow0]) (by norm_num [AckPacket, tahoeFlow0])).2.1 h).1

/-- C4: on a Tahoe batch that ends without the batch-complete event firing,
the flow re-enters slow start (`ssthresh := max(window/2, 2)`, `window := 1`,
`is_CA := false`), and after every batch — completed or timed out — the
retransmit timeout becomes three times the latest RTT sample. -/
theorem tahoe_timeout_slow_start (f : SendingFlow) (h : f.cc = CC.Tahoe) :
    (f.batch_end_step false).ssthresh = max (f.window_size / 2) 2 ∧
    (f.batch_end_step false).window_size = 1 ∧
    (f.batch_end_step false).is_CA = false ∧
    (∀ b : Bool, (f.batch_end_step b).retransmit_timeout = 3 * f.rtt) := by
  refine ⟨?_, ?_, ?_, fun b => ?_⟩
  · simp [SendingFlow.batch_end_step, SendingFlow.enter_slow_start, h]
  · simp [SendingFlow.batch_end_step, SendingFlow.enter_slow_start, h]
  · simp [SendingFlow.batch_end_step, SendingFlow.enter_slow_start, h]
  · cases b <;> simp [SendingFlow.batch_end_step, SendingFlow.enter_slow_start, h]

theorem tahoe_timeout_slow_start_witness :
    tahoeFlow0.cc = CC.Tahoe ∧
    (tahoeFlow0.batch_end_step false).window_size = 1 := by
  exact ⟨rfl, (tahoe_timeout_slow_start tahoeFlow0 rfl).2.1⟩

theorem SendingFlow.FAST_run_acks_base_rtt (f : SendingFlow) (l : List (ℚ × Packet)) :
    (f.FAST_run_acks l).base_rtt ≤ f.base_rtt ∧
    (∀ np ∈ l, (f.FAST_run_acks l).base_rtt ≤ np.1 - np.2.timestamp) ∧
    ((f.FAST_run_acks l).base_rtt = f.base_rtt ∨
      ∃ np ∈ l, (f.FAST_run_acks l).base_rtt = np.1 - np.2.timestamp) := by
  induction l generalizing f with
  | nil => simp [SendingFlow.FAST_run_acks]
  | cons np l ih =>
      have hstep := SendingFlow.FAST_ack_step_base_rtt f np.1 np.2
      have hrun : f.FAST_run_acks (np :: l) =
          ((f.FAST_ack_step np.1 np.2).1).FAST_run_acks l := rfl
      obtain ⟨h1, h2, h3⟩ := ih (f.FAST_ack_step np.1 np.2).1
      rw [hrun]
      refine ⟨le_trans h1 (le_trans (le_of_eq hstep) (min_le_right _ _)), ?_, ?_⟩
      · intro nq hnq
        rcases List.mem_cons.1 hnq with he | hmem
        · rw [he]
          exact le_trans h1 (le_trans (le_of_eq hstep) (min_le_left _ _))
        · exact h2 nq hmem
      · rcases h3 with he | ⟨nq, hnq, he⟩
        · rw [he, hstep]
          rcases min_cases (np.1 - np.2.timestamp) f.base_rtt with ⟨hmin, _⟩ | ⟨hmin, _⟩
          · exact Or.inr ⟨np, List.mem_cons_self _ _, hmin⟩
          · exact Or.inl hmin
        · exact Or.inr ⟨nq, List.mem_cons_of_mem _ hnq, he⟩

/-- C5 (counterexample): `base_rtt` is initialized to 100000 ms, so it is
not the minimum over the RTT samples observed so far.  Here a FAST flow
processes one (non-stale) ACK whose RTT sample is 200000 ms — the minimum
over all samples observed so far is 200000 — yet `base_rtt` stays 100000. -/
theorem fast_base_rtt_counterexample :
    ¬ (AckPacket 2 1 0 0 2).timestamp < fastFlow0.window_start_time ∧
    (fastFlow0.FAST_ack_step 200000 (AckPacket 2 1 0 0 2)).1.rtt = 200000 ∧
    (fastFlow0.FAST_ack_step 200000 (AckPacket 2 1 0 0 2)).1.base_rtt = 100000 ∧
    (100000 : ℚ) ≠ 200000 := by
  refine ⟨by norm_num [AckPacket, fastFlow0, tahoeFlow0], ?_, ?_, by norm_num⟩
  · norm_num [SendingFlow.FAST_ack_step, AckPacket, fastFlow0, tahoeFlow0]
  · norm_num [SendingFlow.FAST_ack_step, AckPacket, fastFlow0, tahoeFlow0]

/-- C5 (amended): while a FAST flow has not ended, each `fast_timeout` the
timer sets the window to `window · base_rtt / rtt + alpha`; `base_rtt` is
updated to `min(rtt, base_rtt)` on every received ACK — hence it is monotone
non-increasing and equals the minimum of its initial value and all RTT
samples observed so far. -/
theorem fast_window_and_base_rtt (f : SendingFlow) (now : ℚ) (p : Packet)
    (l : List (ℚ × Packet)) (hrun : f.end_time = none) :
    f.FAST_timer_step.window_size = f.window_size * f.base_rtt / f.rtt + f.alpha ∧
    (f.FAST_ack_step now p).1.base_rtt = min (now - p.timestamp) f.base_rtt ∧
    (f.FAST_ack_step now p).1.base_rtt ≤ f.base_rtt ∧
    (f.FAST_run_acks l).base_rtt ≤ f.base_rtt ∧
    (∀ np ∈ l, (f.FAST_run_acks l).base_rtt ≤ np.1 - np.2.timestamp) ∧
    ((f.FAST_run_acks l).base_rtt = f.base_rtt ∨
      ∃ np ∈ l, (f.FAST_run_acks l).base_rtt = np.1 - np.2.timestamp) := by
  obtain ⟨h1, h2, h3⟩ := SendingFlow.FAST_run_acks_base_rtt f l
  refine ⟨by simp [SendingFlow.FAST_timer_step, hrun], SendingFlow.FAST_ack_step_base_rtt f now p,
    ?_, h1, h2, h3⟩
  rw [SendingFlow.FAST_ack_step_base_rtt f now p]
  exact min_le_right _ _

theorem fast_window_and_base_rtt_witness :
    fastFlow0.end_time = none ∧
    fastFlow0.FAST_timer_step.window_size =
      fastFlow0.window_size * fastFlow0.base_rtt / fastFlow0.rtt + fastFlow0.alpha := by
  exact ⟨rfl, (fast_window_and_base_rtt fastFlow0 0 (AckPacket 2 1 0 0 2) [] rfl).1⟩

/-- C6 (counterexample): a stale ACK (timestamp before `window_start_time`)
does not leave the flow state unchanged — the RTT fields are updated before
the staleness check.  Here the stale ACK changes `rtt` from 1000 to 150. -/
theorem stale_ack_counterexample :
    (AckPacket 2 1 0 50 2).timestamp < tahoeFlow0.window_start_time ∧
    (tahoeFlow0.tahoe_ack_step 200 (AckPacket 2 1 0 50 2)).1.rtt = 150 ∧
    tahoeFlow0.rtt = 1000 ∧
    (150 : ℚ) ≠ 1000 := by
  refine ⟨by norm_num [AckPacket, tahoeFlow0], ?_, rfl, by norm_num⟩
  norm_num [SendingFlow.tahoe_ack_step, AckPacket, tahoeFlow0]

/-- C6 (amended): for both Tahoe and FAST, an ACK whose timestamp is earlier
than `window_start_time` is ignored after the RTT bookkeeping: the step
leaves `batch_start`, `data_amt`, `window_size`, `dup_ack` and all other
fields unchanged, emits no packet and does not trigger the batch-complete
event, but it does set `rtt := now − timestamp`, add that sample to
`sum_RTT_delay`, and (FAST) lower `base_rtt` to `min(rtt, base_rtt)`. -/
theorem stale_ack_effect (f : SendingFlow) (now : ℚ) (p : Packet)
    (hstale : p.timestamp < f.window_start_time) :
    f.tahoe_ack_step now p =
      ({ f with rtt := now - p.timestamp
                sum_RTT_delay := f.sum_RTT_delay + (now - p.timestamp) }, [], false) ∧
    f.FAST_ack_step now p =
      ({ f with rtt := now - p.timestamp
                base_rtt := min (now - p.timestamp) f.base_rtt
                sum_RTT_delay := f.sum_RTT_delay + (now - p.timestamp) }, false) := by
  constructor <;> simp [SendingFlow.tahoe_ack_step, SendingFlow.FAST_ack_step, hstale]

theorem stale_ack_effect_witness :
    (AckPacket 2 1 0 50 2).timestamp < tahoeFlow0.window_start_time ∧
    (tahoeFlow0.tahoe_ack_step 200 (AckPacket 2 1 0 50 2)).2.2 = false := by
  refine ⟨by norm_num [AckPacket, tahoeFlow0], ?_⟩
  rw [(stale_ack_effect tahoeFlow0 200 (AckPacket 2 1 0 50 2)
    (by norm_num [AckPacket, tahoeFlow0])).1]

/-! ## Host (host.py) -/

/-- The observable outcome of one resume of the outbound driver: the packets
passed to `link.enqueue`, the contents of the `outgoing_packets` buffer
afterwards, and the uncaught Python exception, if one was raised. -/
structure OutgoingResume where
  enqueued : List Packet
  outgoing_packets : List Packet
  error : Option PyError
deriving DecidableEq

/-- One resume of `Host.monitor_outgoing_packets` (host.py lines 108-131)
after the `PROCESSING_TIME` wait.  With exactly one buffered outgoing packet
it is popped and handed to `link.enqueue` (line 118).  Otherwise the
collision branch runs: its loop body looks up the packet's flow (line 125,
which succeeds for flows registered on this host) and calls
`flow.notify_collision(...)` (line 126) — but `Flow` defines no
`notify_collision` method, so the first iteration raises AttributeError and
the buffer clear at line 128 is never reached; with an empty buffer the loop
performs no iteration and line 128 leaves the buffer empty. -/
def monitor_outgoing_resume (outgoing_packets : List Packet) : OutgoingResume :=
  if outgoing_packets.length = 1 then
    { enqueued := outgoing_packets, outgoing_packets := [], error := none }
  else
    match outgoing_packets with
    | [] => { enqueued := [], outgoing_packets := [], error := none }
    | _ :: _ =>
        { enqueued := []
          outgoing_packets := outgoing_packets
          error := some (PyError.attributeError "notify_collision") }

/-- The state of a `Host`: its id and its flow table.  The claims only
exercise receiving flows in the table. -/
structure Host where
  host_id : ℤ
  flows : List (ℤ × ReceivingFlow)
deriving DecidableEq

/-- Embeds `Host.remove_flow` (host.py lines 94-97): `del self.flows[flow_id]`. -/
def Host.remove_flow (h : Host) (flow_id : ℤ) : Host :=
  { h with flows := h.flows.filter (fun e => decide (e.1 ≠ flow_id)) }

/-- The dispatch of `Host.monitor_incoming_packets` (host.py lines 156-165):
deliver to the registered flow if the packet's flow id is known, otherwise
create a `ReceivingFlow` on the fly (destination = the packet's source,
source host = this host), register it, and deliver to it.  Returns the
(possibly extended) host and the flow that `receive_packet` is invoked on. -/
def Host.route_incoming (h : Host) (p : Packet) : Host × ReceivingFlow :=
  match h.flows.lookup p.flow_id with
  | some f => (h, f)
  | none =>
      let f0 := ReceivingFlow.init p.flow_id p.src h.host_id
      ({ h with flows := (p.flow_id, f0) :: h.flows }, f0)

theorem lookup_filter_ne (k : ℤ) (l : List (ℤ × ReceivingFlow)) :
    (l.filter (fun e => decide (e.1 ≠ k))).lookup k = none := by
  induction l with
  | nil => rfl
  | cons e l ih =>
      rw [List.filter_cons]
      by_cases h : e.1 = k
      · simp only [h, ne_eq, not_true_eq_false, decide_False, Bool.false_eq_true, if_false]
        exact ih
      · have hbeq : (k == e.1) = false := by
          simp [Ne.symm h]
        simp only [ne_eq, h, not_false_eq_true, decide_True, if_true, List.lookup, hbeq]
        exact ih

/-- C7 (counterexample): when two packets are buffered at the moment the
outbound driver resumes, neither is passed to `link.enqueue` — the driver
takes the collision branch, which raises AttributeError before enqueueing
anything. -/
theorem host_outgoing_two_packets_counterexample :
    (monitor_outgoing_resume [DataPacket 0 1 2 0 1, DataPacket 0 3 2 0 1]).enqueued = [] ∧
    DataPacket 0 1 2 0 1 ∈ [DataPacket 0 1 2 0 1, DataPacket 0 3 2 0 1] ∧
    DataPacket 0 1 2 0 1 ∉
      (monitor_outgoing_resume [DataPacket 0 1 2 0 1, DataPacket 0 3 2 0 1]).enqueued := by
  refine ⟨rfl, List.mem_cons_self _ _, ?_⟩
  intro hmem
  simp [monitor_outgoing_resume] at hmem

/-- C7 (amended): on resume the outbound driver passes the buffered packet to
`link.enqueue` only when exactly one packet is buffered; with more than one
buffered packet, no packet reaches `link.enqueue` — the collision branch
instead raises AttributeError at its first `notify_collision` call (`Flow`
defines no such method), leaving the outgoing buffer intact. -/
theorem host_outgoing_flush (l : List Packet) :
    (l.length = 1 → monitor_outgoing_resume l =
      { enqueued := l, outgoing_packets := [], error := none }) ∧
    (∀ p ps, l = p :: ps → l.length ≠ 1 →
      monitor_outgoing_resume l =
        { enqueued := [], outgoing_packets := l,
          error := some (PyError.attributeError "notify_collision") }) := by
  refine ⟨fun h1 => ?_, fun p ps hl hn => ?_⟩
  · simp [monitor_outgoing_resume, h1]
  · subst hl
    have hps : ps ≠ [] := by
      intro hcontra
      subst hcontra
      exact hn rfl
    simp [monitor_outgoing_resume, hn, hps]

theorem host_outgoing_flush_witness :
    ([DataPacket 0 1 2 0 1].length = 1) ∧
    monitor_outgoing_resume [DataPacket 0 1 2 0 1] =
      { enqueued := [DataPacket 0 1 2 0 1], outgoing_packets := [], error := none } :=
  ⟨rfl, (host_outgoing_flush [DataPacket 0 1 2 0 1]).1 rfl⟩

/-- C10: a receiving flow handling a FIN replies with a FIN and removes
itself from its host's flow table (`end_flow`); a packet that later arrives
at the host with the same flow id no longer finds a flow and causes the
creation of a brand-new receiving flow whose `req_num` restarts at 1. -/
theorem fin_then_fresh_receiving_flow (h : Host) (f : ReceivingFlow) (p q : Packet)
    (hf : h.flows.lookup f.flow_id = some f)
    (hp : p.packet_type = PacketType.fin_packet)
    (hq : q.flow_id = f.flow_id) :
    f.step p = Except.ok (RFStep.finished
      (FINPacket f.src_host_id f.flow_id f.dest_host_id p.timestamp (-1))) ∧
    (h.remove_flow f.flow_id).flows.lookup f.flow_id = none ∧
    ((h.remove_flow f.flow_id).route_incoming q).2 =
      ReceivingFlow.init q.flow_id q.src h.host_id ∧
    ((h.remove_flow f.flow_id).route_incoming q).2.req_num = 1 ∧
    ((h.remove_flow f.flow_id).route_incoming q).1.flows.lookup f.flow_id =
      some (ReceivingFlow.init q.flow_id q.src h.host_id) := by
  have hdata : ¬ p.packet_type = PacketType.data_packet := by
    rw [hp]; intro hcontra; cases hcontra
  have hremoved : (h.remove_flow f.flow_id).flows.lookup f.flow_id = none :=
    lookup_filter_ne f.flow_id h.flows
  have hremoved' : List.lookup q.flow_id
      (h.flows.filter (fun e => !decide (e.1 = f.flow_id))) = none := by
    rw [hq]
    simpa using lookup_filter_ne f.flow_id h.flows
  have hbeq : (f.flow_id == q.flow_id) = true := by
    simp [hq]
  refine ⟨?_, hremoved, ?_, ?_, ?_⟩
  · simp [ReceivingFlow.step, hdata, hp]
  · simp [Host.route_incoming, Host.remove_flow, hremoved']
  · simp [Host.route_incoming, Host.remove_flow, hremoved', ReceivingFlow.init]
  · simp [Host.route_incoming, Host.remove_flow, hremoved', List.lookup, hbeq]

theorem fin_then_fresh_receiving_flow_witness :
    ((Host.mk 1 [(7, ReceivingFlow.init 7 2 1)]).flows.lookup
        (ReceivingFlow.init 7 2 1).flow_id = some (ReceivingFlow.init 7 2 1)) ∧
    (((Host.mk 1 [(7, ReceivingFlow.init 7 2 1)]).remove_flow
        (ReceivingFlow.init 7 2 1).flow_id).route_incoming
        (DataPacket 2 7 1 400 1)).2.req_num = 1 := by
  refine ⟨rfl, ?_⟩
  exact (fin_then_fresh_receiving_flow (Host.mk 1 [(7, ReceivingFlow.init 7 2 1)])
    (ReceivingFlow.init 7 2 1) (FINPacket 2 7 1 300 (-1)) (DataPacket 2 7 1 400 1)
    rfl rfl rfl).2.2.2.1

/-! ## Router (router.py) -/

/-- The module-global names bound in router.py: its single import
(`from packet import RoutingUpdatePacket`) and the `Router` class itself.
In particular neither `Packet` nor a bare `process_routing_packet` is
bound at module level. -/
def routerGlobalNames : List String := ["RoutingUpdatePacket", "Router"]

/-- Python name resolution for a module-global reference inside router.py:
an unbound name raises `NameError`. -/
def resolveRouterGlobal (n : String) : Except PyError Unit :=
  if n ∈ routerGlobalNames then Except.ok () else Except.error (PyError.nameError n)

/-- The state of a `Router`: its id, attached link ids, and the routing
table mapping destination host ids to link ids. -/
structure Router where
  router_id : ℤ
  links : List ℤ
  routing_table : List (ℤ × ℤ)
deriving DecidableEq

/-- Embeds `Router.receive_packet` (router.py lines 86-109).  Line 95 evaluates
`Packet.PacketTypes.routing_update_packet`, which first resolves the
module-global `Packet`; on a routing update the bare call
`process_routing_packet(packet)` (line 97) resolves another module global;
otherwise the packet is looked up in the routing table and either enqueued
on the chosen link (returned as `some (link_id, packet)`) or silently
dropped (`none`). -/
def Router.receive_packet (r : Router) (p : Packet) :
    Except PyError (Option (ℤ × Packet)) := do
  resolveRouterGlobal "Packet"
  if p.packet_type = PacketType.routing_update_packet then do
    resolveRouterGlobal "process_routing_packet"
    pure none
  else
    match r.routing_table.lookup p.dest with
    | some link_id => pure (some (link_id, p))
    | none => pure none

/-- C8: router.py never imports `Packet`, so the very first line of
`receive_packet`'s dispatch raises `NameError: name 'Packet' is not defined`
on every packet — in particular at the concrete data packet below the router
neither forwards via its routing table nor drops silently, contradicting the
method's own docstring ("Processes it if it is a RoutingUpdatePacket and
otherwise forwards immediately"). -/
theorem router_receive_packet_name_error :
    (Router.mk 10 [3, 4] [(2, 3)]).receive_packet (DataPacket 1 1 2 0 1) =
      Except.error (PyError.nameError "Packet") ∧
    ∀ (r : Router) (p : Packet),
      r.receive_packet p = Except.error (PyError.nameError "Packet") := by
  exact ⟨rfl, fun r p => rfl⟩

/-- The data-plane branch of `Router.receive_packet` (router.py lines
100-109) in isolation, as it would run if the guarding type test did not
fail name resolution: forward on the routing table's link or drop silently. -/
def Router.forward_data_plane (r : Router) (p : Packet) : Option (ℤ × Packet) :=
  match r.routing_table.lookup p.dest with
  | some link_id => some (link_id, p)
  | none => none

/-- The claimed dichotomy does hold of the (unreachable) data-plane branch:
a routed destination goes out on exactly the table's link, an unknown
destination is dropped with no link touched. -/
theorem router_forward_data_plane_dichotomy (r : Router) (p : Packet) :
    (∀ link_id, r.routing_table.lookup p.dest = some link_id →
      r.forward_data_plane p = some (link_id, p)) ∧
    (r.routing_table.lookup p.dest = none → r.forward_data_plane p = none) := by
  constructor
  · intro link_id hsome
    simp [Router.forward_data_plane, hsome]
  · intro hnone
    simp [Router.forward_data_plane, hnone]
